import Mathlib

/-!
Shallow embedding of the chat server in `src/server.js` (Express + socket.io +
Postgres).  Pure Lean definitions mirror the request/event handlers; the
external collaborators (bcrypt, Postgres, the session store) are modelled as
explicit parameters: bcrypt as an opaque hash/compare function, the database
as an explicit list of rows plus a flag for query success, clocks as explicit
`Nat` timestamps.
-/

namespace ChatAI

/-- A JavaScript value as far as the server's truthiness tests care:
`undefined` (a field that was never set), a number, or a string.
`server.js` gates on `!socket.userId` and `!req.session.userId`, so the
JS truthiness of these three shapes is what matters. -/
inductive JSValue where
  | undefined : JSValue
  | num (n : Int) : JSValue
  | str (s : String) : JSValue
deriving DecidableEq, Repr

/-- JS truthiness: `undefined`, `0` and `""` are falsy. -/
def JSValue.truthy : JSValue → Bool
  | .undefined => false
  | .num n => n != 0
  | .str s => s != ""

/-- Payload of the client's `authenticate` event (`sessionData` in
`server.js:145`): whatever `userId` and `username` the client supplies. -/
structure AuthPayload where
  userId : JSValue
  username : JSValue
deriving DecidableEq, Repr

/-- Per-connection state: the socket.io socket object with the two fields the
server writes on it (`socket.userId`, `socket.username`, `server.js:146-147`)
and whether its transport is still connected.  A fresh socket has both
identity fields `undefined`. -/
structure Socket where
  sockId : Nat
  userId : JSValue
  username : JSValue
  connected : Bool
deriving DecidableEq, Repr

/-- A freshly connected socket (`io.on('connection')`, `server.js:142`):
no identity fields set, transport open. -/
def initSocket (sid : Nat) : Socket :=
  { sockId := sid, userId := .undefined, username := .undefined, connected := true }

/-- A row of the `messages` table (`server.js:41-49`).  `created_at` is filled
by the database default `CURRENT_TIMESTAMP` at insert time, modelled as an
explicit timestamp argument to the insert. -/
structure MessageRow where
  user_id : JSValue
  username : JSValue
  message : String
  created_at : Nat
deriving DecidableEq, Repr

/-- An outbound realtime event produced by a handler: either a unicast
`socket.emit(event, message)` to the handling connection, or the global
`io.emit('new_message', ...)` broadcast of `server.js:161-165`. -/
inductive Emit where
  | toSender (event : String) (message : String) : Emit
  | broadcastNewMessage (username : JSValue) (message : String) (created_at : Nat) : Emit
deriving DecidableEq, Repr

/-- The `authenticate` handler, `server.js:145-148`.  Its entire body is the
two assignments `socket.userId = sessionData.userId` and
`socket.username = sessionData.username`: no validation, no lookup of other
connections, no disconnect of anything, and no emit (the returned emit list
is always empty). -/
def handleAuthenticate (s : Socket) (d : AuthPayload) : Socket × List Emit :=
  ({ s with userId := d.userId, username := d.username }, [])

/-- The `send_message` handler, `server.js:150-170`.  `insertOk` models
whether the single `INSERT INTO messages` query succeeds; `dbNow` is the
timestamp the database default writes into the row, `serverNow` the value of
`new Date()` taken by the handler for the broadcast payload.  Returns the
messages table after the handler and the list of emitted events. -/
def handleSendMessage (s : Socket) (text : String) (insertOk : Bool)
    (dbNow serverNow : Nat) (rows : List MessageRow) : List MessageRow × List Emit :=
  if s.userId.truthy = false then
    (rows, [Emit.toSender "error" "Not authenticated"])
  else if insertOk then
    (rows ++ [{ user_id := s.userId, username := s.username, message := text, created_at := dbNow }],
      [Emit.broadcastNewMessage s.username text serverNow])
  else
    (rows, [Emit.toSender "error" "Failed to send message"])

/-- The socket state after a fresh connection has received the given sequence
of `authenticate` events (and any number of other events, which never touch
the identity fields). -/
def socketAfterAuths (sid : Nat) (auths : List AuthPayload) : Socket :=
  auths.foldl (fun s d => (handleAuthenticate s d).1) (initSocket sid)

/-- The whole realtime layer's connection state: the list of currently open
sockets.  `server.js` keeps no other per-user state (no registry mapping
users to connections). -/
structure ServerState where
  sockets : List Socket
deriving DecidableEq, Repr

/-- Delivery of an `authenticate` event on connection `sid` at the server
level: the handler `server.js:145-148` runs on that one socket and reads or
writes nothing else — no other socket is touched, nothing is disconnected. -/
def serverAuthenticate (st : ServerState) (sid : Nat) (d : AuthPayload) : ServerState :=
  { sockets := st.sockets.map (fun s => if s.sockId = sid then (handleAuthenticate s d).1 else s) }

/-- A row of the `users` table (`server.js:33-38`); `password` holds the
bcrypt hash (opaque string). -/
structure UserRow where
  id : Int
  username : String
  password : String
deriving DecidableEq, Repr

/-- The JSON body `res.json({ success: true, username: ... })` sent by
`/register` (`server.js:75`) and `/login` (`server.js:105`).  The JS object
has exactly the keys `success` and `username`; `userId` is modelled as an
`Option` so that its absence from the body is expressible (`none` = the key
is not in the object). -/
structure AuthBody where
  success : Bool
  username : String
  userId : Option Int
deriving DecidableEq, Repr

/-- Outcome of an HTTP auth route: a 200 JSON body together with the session
fields the handler set (`req.session.userId`, `req.session.username`), or an
error status with its JSON `error` string. -/
inductive HttpResult where
  | ok (body : AuthBody) (sessionUserId : Int) (sessionUsername : String) : HttpResult
  | err (status : Nat) (error : String) : HttpResult
deriving DecidableEq, Repr

/-- `SELECT * FROM users WHERE username = $1` followed by taking `rows[0]`
(`server.js:90-96`); usernames are unique, so the first match is the row. -/
def findUser (users : List UserRow) (username : String) : Option UserRow :=
  users.find? (fun u => u.username = username)

/-- The `/register` handler, `server.js:55-84`.  `hash` models
`bcrypt.hash`; `nextId` the `SERIAL` id the insert would allocate.  A missing
body field arrives as `undefined`, which fails the same `!username`
truthiness test as the empty string; it is modelled as `""`.  The duplicate
check models the `23505` unique-violation branch of `server.js:77-78`.
Returns the HTTP result and the users table after the request. -/
def register (hash : String → String) (users : List UserRow) (nextId : Int)
    (username password : String) : HttpResult × List UserRow :=
  if username = "" || password = "" then
    (.err 400 "Username and password required", users)
  else if username.length < 3 || password.length < 6 then
    (.err 400 "Username min 3 chars, password min 6 chars", users)
  else if users.any (fun u => u.username = username) then
    (.err 400 "Username already exists", users)
  else
    (.ok { success := true, username := username, userId := none } nextId username,
      users ++ [{ id := nextId, username := username, password := hash password }])

/-- The `/login` handler, `server.js:86-110`.  `cmp` models
`bcrypt.compare password storedHash`. -/
def login (cmp : String → String → Bool) (users : List UserRow)
    (username password : String) : HttpResult :=
  match findUser users username with
  | none => .err 401 "Invalid credentials"
  | some u =>
    if cmp password u.password then
      .ok { success := true, username := u.username, userId := none } u.id u.username
    else
      .err 401 "Invalid credentials"

/-- The projection `SELECT username, message, created_at` of a message row
(`server.js:132`). -/
structure MsgView where
  username : JSValue
  message : String
  created_at : Nat
deriving DecidableEq, Repr

/-- Project a stored row to the columns `/messages` selects. -/
def MessageRow.view (r : MessageRow) : MsgView :=
  { username := r.username, message := r.message, created_at := r.created_at }

/-- Outcome of `GET /messages`: a 200 JSON array or an error status. -/
inductive MessagesResponse where
  | ok (rows : List MsgView) : MessagesResponse
  | err (status : Nat) (error : String) : MessagesResponse
deriving DecidableEq, Repr

/-- The comparison `ORDER BY created_at DESC` sorts by: `a` before `b` iff
`b.created_at ≤ a.created_at`. -/
def msgDescR (a b : MessageRow) : Prop := b.created_at ≤ a.created_at

instance : DecidableRel msgDescR := fun a b => Nat.decLe b.created_at a.created_at

instance : IsTotal MessageRow msgDescR :=
  ⟨fun a b => Nat.le_total b.created_at a.created_at⟩

instance : IsTrans MessageRow msgDescR :=
  ⟨fun _ _ _ hab hbc => Nat.le_trans hbc hab⟩

/-- The `GET /messages` handler, `server.js:125-139`: reject 401 when the
session carries no truthy `userId`; otherwise run
`SELECT username, message, created_at FROM messages ORDER BY created_at DESC
LIMIT 100` and answer with `result.rows.reverse()`.  The database's
descending sort is modelled by `List.insertionSort` with `msgDescR`. -/
def getMessages (sessionUserId : JSValue) (rows : List MessageRow) : MessagesResponse :=
  if sessionUserId.truthy = false then
    .err 401 "Not authenticated"
  else
    .ok ((((List.insertionSort msgDescR rows).take 100).reverse).map MessageRow.view)

/-! ### Helper lemmas -/

/-- Identity fields after a fold of `authenticate` events whose `userId`
payloads are all falsy stay falsy. -/
theorem foldl_auth_userId_falsy (s : Socket) (auths : List AuthPayload)
    (hs : s.userId.truthy = false) (h : ∀ d ∈ auths, d.userId.truthy = false) :
    (auths.foldl (fun s d => (handleAuthenticate s d).1) s).userId.truthy = false := by
  induction auths generalizing s with
  | nil => exact hs
  | cons d rest ih =>
    simp only [List.foldl_cons]
    exact ih _ (h d (by simp)) (fun d' hd' => h d' (List.mem_cons_of_mem _ hd'))

/-! ### Claims -/

/-- Claim C2: for every connection and every `send_message` received before
the connection has completed an authenticate handshake (the code has no
failure path in `authenticate`, so a handshake that has not completed is a
connection whose received `authenticate` events — if any — all carried a
falsy `userId`), the server emits an `error` event to the sender, persists
no message row and broadcasts nothing. -/
theorem send_before_auth_rejected (sid : Nat) (auths : List AuthPayload)
    (h : ∀ d ∈ auths, d.userId.truthy = false)
    (text : String) (insertOk : Bool) (dbNow serverNow : Nat) (rows : List MessageRow) :
    handleSendMessage (socketAfterAuths sid auths) text insertOk dbNow serverNow rows
      = (rows, [Emit.toSender "error" "Not authenticated"]) := by
  have hgate : (socketAfterAuths sid auths).userId.truthy = false :=
    foldl_auth_userId_falsy (initSocket sid) auths rfl h
  simp [handleSendMessage, hgate]

/-- Witness for C2: a fresh connection (no authenticate events at all) that
sends a message gets the error and nothing is stored or broadcast. -/
theorem send_before_auth_rejected_witness :
    handleSendMessage (socketAfterAuths 1 []) "hi" true 5 6 []
      = ([], [Emit.toSender "error" "Not authenticated"]) :=
  send_before_auth_rejected 1 [] (by simp) "hi" true 5 6 []

/-- Claim C7: when the persistence append fails for a `send_message` from an
authenticated connection, the handler emits exactly one event, a unicast
`error` to the sending connection; the messages table is unchanged (nothing
persisted and the insert is not retried) and no broadcast occurs. -/
theorem send_persist_failure_unicast_only (s : Socket) (h : s.userId.truthy = true)
    (text : String) (dbNow serverNow : Nat) (rows : List MessageRow) :
    handleSendMessage s text false dbNow serverNow rows
      = (rows, [Emit.toSender "error" "Failed to send message"]) := by
  simp [handleSendMessage, h]

/-- Witness for C7 at a concrete authenticated socket and failing insert. -/
theorem send_persist_failure_unicast_only_witness :
    handleSendMessage { sockId := 1, userId := .num 4, username := .str "alice", connected := true }
        "hi" false 5 6 []
      = ([], [Emit.toSender "error" "Failed to send message"]) :=
  send_persist_failure_unicast_only
    { sockId := 1, userId := .num 4, username := .str "alice", connected := true }
    (by decide) "hi" 5 6 []

/-- Claim C9: an `authenticate` event unconditionally overwrites the
connection's bound identity with the supplied payload — whatever identity the
socket already carried — and a subsequent successful `send_message` is
persisted and broadcast under the newly supplied identity, with no
verification of the claimed identity anywhere. -/
theorem auth_overwrites_identity_unverified (s : Socket) (d : AuthPayload)
    (h : d.userId.truthy = true)
    (text : String) (dbNow serverNow : Nat) (rows : List MessageRow) :
    (handleAuthenticate s d).1 = { s with userId := d.userId, username := d.username } ∧
    handleSendMessage (handleAuthenticate s d).1 text true dbNow serverNow rows
      = (rows ++ [{ user_id := d.userId, username := d.username, message := text, created_at := dbNow }],
          [Emit.broadcastNewMessage d.username text serverNow]) := by
  refine ⟨rfl, ?_⟩
  simp [handleAuthenticate, handleSendMessage, h]

/-- Witness for C9: a socket already authenticated as user 5/"alice" is
re-bound by a bare `authenticate` claiming user 9/"mallory", and its next
message is stored and broadcast as "mallory". -/
theorem auth_overwrites_identity_unverified_witness :
    (handleAuthenticate { sockId := 1, userId := .num 5, username := .str "alice", connected := true }
        { userId := .num 9, username := .str "mallory" }).1
      = { sockId := 1, userId := .num 9, username := .str "mallory", connected := true } ∧
    handleSendMessage
        (handleAuthenticate { sockId := 1, userId := .num 5, username := .str "alice", connected := true }
          { userId := .num 9, username := .str "mallory" }).1 "hi" true 5 6 []
      = ([{ user_id := .num 9, username := .str "mallory", message := "hi", created_at := 5 }],
          [Emit.broadcastNewMessage (.str "mallory") "hi" 6]) :=
  auth_overwrites_identity_unverified
    { sockId := 1, userId := .num 5, username := .str "alice", connected := true }
    { userId := .num 9, username := .str "mallory" } (by decide) "hi" 5 6 []

/-- Claim C10: on a successfully persisted `send_message`, the stored row's
`created_at` is the database-default timestamp `dbNow`, while the broadcast
`new_message` carries the fresh `new Date()` value `serverNow` taken at emit
time; in particular whenever the two clocks disagree the broadcast does not
carry the persisted row's timestamp. -/
theorem broadcast_timestamp_fresh (s : Socket) (h : s.userId.truthy = true)
    (text : String) (dbNow serverNow : Nat) (rows : List MessageRow) :
    handleSendMessage s text true dbNow serverNow rows
      = (rows ++ [{ user_id := s.userId, username := s.username, message := text, created_at := dbNow }],
          [Emit.broadcastNewMessage s.username text serverNow]) ∧
    (dbNow ≠ serverNow →
      (handleSendMessage s text true dbNow serverNow rows).2
        ≠ [Emit.broadcastNewMessage s.username text dbNow]) := by
  constructor
  · simp [handleSendMessage, h]
  · intro hne
    simp [handleSendMessage, h]
    exact fun heq => hne heq.symm

/-- Witness for C10: with database clock 5 and server clock 6, the stored row
says 5 and the broadcast says 6, and the broadcast differs from what the
stored timestamp would give. -/
theorem broadcast_timestamp_fresh_witness :
    (handleSendMessage { sockId := 1, userId := .num 4, username := .str "alice", connected := true }
          "hi" true 5 6 []
        = ([{ user_id := .num 4, username := .str "alice", message := "hi", created_at := 5 }],
            [Emit.broadcastNewMessage (.str "alice") "hi" 6])) ∧
    ((handleSendMessage { sockId := 1, userId := .num 4, username := .str "alice", connected := true }
          "hi" true 5 6 []).2
        ≠ [Emit.broadcastNewMessage (.str "alice") "hi" 5]) := by
  have h := broadcast_timestamp_fresh
    { sockId := 1, userId := .num 4, username := .str "alice", connected := true }
    (by decide) "hi" 5 6 []
  exact ⟨h.1, h.2 (by decide)⟩

/-- Claim C1 counterexample: two fresh connections (ids 1 and 2); connection 1
completes the handshake as user 7, then connection 2 completes it as the same
user.  Afterwards connection 1 is still connected (`connected = true`) and
still bound to user 7 — its transport was not force-disconnected, so the
claim fails at this input (the code keeps no user-to-connection registry and
never disconnects anything in the `authenticate` handler). -/
theorem supersession_counterexample :
    ((serverAuthenticate
        (serverAuthenticate { sockets := [initSocket 1, initSocket 2] } 1
          { userId := .num 7, username := .str "alice" })
        2 { userId := .num 7, username := .str "alice" }).sockets.find?
          (fun s => s.sockId = 1))
      = some { sockId := 1, userId := .num 7, username := .str "alice", connected := true } := by
  decide

/-- Claim C1 as amended: when connection B authenticates as the same user a
previously authenticated connection A is bound to, A is *not* disconnected:
A keeps its connected flag and remains bound to that user, exactly as B is —
the server maintains no user-to-connection registry and performs no forced
termination. -/
theorem no_supersession (st : ServerState) (a b : Nat) (d : AuthPayload)
    (sA sB : Socket) (hA : sA ∈ st.sockets) (hidA : sA.sockId = a)
    (hB : sB ∈ st.sockets) (hidB : sB.sockId = b) (hne : a ≠ b) :
    ∃ sA' ∈ (serverAuthenticate (serverAuthenticate st a d) b d).sockets,
      sA'.sockId = a ∧ sA'.connected = sA.connected ∧
      sA'.userId = d.userId ∧ sA'.username = d.username ∧
      ∃ sB' ∈ (serverAuthenticate (serverAuthenticate st a d) b d).sockets,
        sB'.sockId = b ∧ sB'.connected = sB.connected ∧
        sB'.userId = d.userId ∧ sB'.username = d.username := by
  have hA1 : (handleAuthenticate sA d).1 ∈ (serverAuthenticate st a d).sockets := by
    have hm := List.mem_map_of_mem
      (fun s => if s.sockId = a then (handleAuthenticate s d).1 else s) hA
    simpa [serverAuthenticate, hidA] using hm
  have hAne : (handleAuthenticate sA d).1.sockId ≠ b := by
    simpa [handleAuthenticate, hidA] using hne
  have hA2 : (handleAuthenticate sA d).1
      ∈ (serverAuthenticate (serverAuthenticate st a d) b d).sockets := by
    have hm := List.mem_map_of_mem
      (fun s => if s.sockId = b then (handleAuthenticate s d).1 else s) hA1
    simpa [serverAuthenticate, hAne] using hm
  have hBne : sB.sockId ≠ a := by rw [hidB]; exact fun hc => hne hc.symm
  have hB1 : sB ∈ (serverAuthenticate st a d).sockets := by
    have hm := List.mem_map_of_mem
      (fun s => if s.sockId = a then (handleAuthenticate s d).1 else s) hB
    simpa [serverAuthenticate, hBne] using hm
  have hB2 : (handleAuthenticate sB d).1
      ∈ (serverAuthenticate (serverAuthenticate st a d) b d).sockets := by
    have hm := List.mem_map_of_mem
      (fun s => if s.sockId = b then (handleAuthenticate s d).1 else s) hB1
    simpa [serverAuthenticate, hidB] using hm
  exact ⟨(handleAuthenticate sA d).1, hA2, hidA, rfl, rfl, rfl,
    (handleAuthenticate sB d).1, hB2, hidB, rfl, rfl, rfl⟩

/-- Witness for amended C1 at the concrete two-connection state. -/
theorem no_supersession_witness :
    ∃ sA' ∈ (serverAuthenticate
        (serverAuthenticate { sockets := [initSocket 1, initSocket 2] } 1
          { userId := .num 7, username := .str "alice" })
        2 { userId := .num 7, username := .str "alice" }).sockets,
      sA'.sockId = 1 ∧ sA'.connected = (initSocket 1).connected ∧
      sA'.userId = .num 7 ∧ sA'.username = .str "alice" ∧
      ∃ sB' ∈ (serverAuthenticate
          (serverAuthenticate { sockets := [initSocket 1, initSocket 2] } 1
            { userId := .num 7, username := .str "alice" })
          2 { userId := .num 7, username := .str "alice" }).sockets,
        sB'.sockId = 2 ∧ sB'.connected = (initSocket 2).connected ∧
        sB'.userId = .num 7 ∧ sB'.username = .str "alice" :=
  no_supersession { sockets := [initSocket 1, initSocket 2] } 1 2
    { userId := .num 7, username := .str "alice" }
    (initSocket 1) (initSocket 2) (by simp) rfl (by simp) rfl (by decide)

/-- Claim C3 counterexample: an `authenticate` whose `userId` and `username`
are both empty strings produces no emitted event at all — in particular no
`auth_error` — and silently stores the empty values as the connection's
identity, so the claim's required `auth_error` emission fails at this
input. -/
theorem auth_error_counterexample :
    handleAuthenticate (initSocket 1) { userId := .str "", username := .str "" }
      = ({ sockId := 1, userId := .str "", username := .str "", connected := true }, []) := rfl

/-- Claim C3 as amended: on any `authenticate` event — valid or not — the
server emits no event (no `auth_error`), overwrites the stored identity with
the supplied values, and leaves the transport open (not destroyed).  When the
stored `userId` is missing/empty the connection still cannot send (every
`send_message` is rejected), and a later `authenticate` can still overwrite
the identity and succeed; but a non-empty `userId` with an empty `username`
is accepted and enables sending under that empty username. -/
theorem auth_invalid_fields_behavior (s : Socket) (d : AuthPayload) :
    (handleAuthenticate s d).2 = [] ∧
    (handleAuthenticate s d).1 = { s with userId := d.userId, username := d.username } ∧
    (handleAuthenticate s d).1.connected = s.connected ∧
    (d.userId.truthy = false → ∀ (text : String) (insertOk : Bool) (dbNow serverNow : Nat)
      (rows : List MessageRow),
      handleSendMessage (handleAuthenticate s d).1 text insertOk dbNow serverNow rows
        = (rows, [Emit.toSender "error" "Not authenticated"])) ∧
    (d.userId.truthy = true → ∀ (text : String) (dbNow serverNow : Nat) (rows : List MessageRow),
      handleSendMessage (handleAuthenticate s d).1 text true dbNow serverNow rows
        = (rows ++ [{ user_id := d.userId, username := d.username, message := text, created_at := dbNow }],
            [Emit.broadcastNewMessage d.username text serverNow])) ∧
    (∀ d2 : AuthPayload, (handleAuthenticate (handleAuthenticate s d).1 d2).1
        = { s with userId := d2.userId, username := d2.username }) := by
  refine ⟨rfl, rfl, rfl, ?_, ?_, fun d2 => rfl⟩
  · intro hfalse text insertOk dbNow serverNow rows
    simp [handleAuthenticate, handleSendMessage, hfalse]
  · intro htrue text dbNow serverNow rows
    simp [handleAuthenticate, handleSendMessage, htrue]

/-- Witness for amended C3: an all-empty payload leaves the connection unable
to send, and a payload with numeric `userId` but empty `username` enables
sending under the empty username. -/
theorem auth_invalid_fields_behavior_witness :
    (handleSendMessage
        (handleAuthenticate (initSocket 3) { userId := .str "", username := .str "" }).1
        "hi" true 5 6 []
      = ([], [Emit.toSender "error" "Not authenticated"])) ∧
    (handleSendMessage
        (handleAuthenticate (initSocket 4) { userId := .num 2, username := .str "" }).1
        "hi" true 5 6 []
      = ([{ user_id := .num 2, username := .str "", message := "hi", created_at := 5 }],
          [Emit.broadcastNewMessage (.str "") "hi" 6])) :=
  ⟨(auth_invalid_fields_behavior (initSocket 3)
      { userId := .str "", username := .str "" }).2.2.2.1 (by decide) "hi" true 5 6 [],
   (auth_invalid_fields_behavior (initSocket 4)
      { userId := .num 2, username := .str "" }).2.2.2.2.1 (by decide) "hi" 5 6 []⟩

/-- Claim C4: evaluation of the `authenticate` handler at a fully valid
payload.  The identity is bound, but the emitted-event list is empty: the
server never sends the `authenticated` success acknowledgment the claim (and
the bundled client, which only enables sending after receiving it) requires. -/
theorem auth_no_ack_eval :
    handleAuthenticate (initSocket 1) { userId := .num 1, username := .str "alice" }
      = ({ sockId := 1, userId := .num 1, username := .str "alice", connected := true }, []) := rfl

/-- Claim C6: a login for an existing username with a wrong password answers
401 with the same response value as a login for a non-existent username —
the two error responses are indistinguishable. -/
theorem login_error_indistinguishable (cmp : String → String → Bool) (users : List UserRow)
    (uname pw uname2 pw2 : String) (u : UserRow)
    (h1 : findUser users uname = some u) (h2 : cmp pw u.password = false)
    (h3 : findUser users uname2 = none) :
    login cmp users uname pw = HttpResult.err 401 "Invalid credentials" ∧
    login cmp users uname pw = login cmp users uname2 pw2 := by
  have e1 : login cmp users uname pw = HttpResult.err 401 "Invalid credentials" := by
    simp [login, h1, h2]
  have e2 : login cmp users uname2 pw2 = HttpResult.err 401 "Invalid credentials" := by
    simp [login, h3]
  exact ⟨e1, e1.trans e2.symm⟩

/-- Witness for C6: wrong password for existing "alice" versus non-existent
"bob" produce the identical 401 response. -/
theorem login_error_indistinguishable_witness :
    login (fun p stored => p == stored)
        [{ id := 1, username := "alice", password := "secret99" }] "alice" "wrong"
      = HttpResult.err 401 "Invalid credentials" ∧
    login (fun p stored => p == stored)
        [{ id := 1, username := "alice", password := "secret99" }] "alice" "wrong"
      = login (fun p stored => p == stored)
          [{ id := 1, username := "alice", password := "secret99" }] "bob" "whatever" :=
  login_error_indistinguishable (fun p stored => p == stored)
    [{ id := 1, username := "alice", password := "secret99" }] "alice" "wrong" "bob" "whatever"
    { id := 1, username := "alice", password := "secret99" } (by decide) (by decide) (by decide)

/-- Claim C8: evaluation of `/register` and `/login` at a successful concrete
input.  Both respond 200 with `success` and `username`, and both set the
session to the user's id and name — but neither response body contains a
`userId` key (`userId = none`), contradicting the claim (and stranding the
bundled client, which reads `data.userId` from these bodies). -/
theorem register_login_body_eval :
    (register (fun p => p) [] 1 "alice" "password1").1
      = HttpResult.ok { success := true, username := "alice", userId := none } 1 "alice" ∧
    (register (fun p => p) [] 1 "alice" "password1").2
      = [{ id := 1, username := "alice", password := "password1" }] ∧
    login (fun p stored => p == stored)
        [{ id := 1, username := "alice", password := "password1" }] "alice" "password1"
      = HttpResult.ok { success := true, username := "alice", userId := none } 1 "alice" := by
  refine ⟨?_, ?_, ?_⟩ <;> decide

/-- Claim C5: `GET /messages` without a session answers 401 with no message
data; with a session it answers 200 with a list that is sorted by creation
time ascending, has length `min 100 (number of stored rows)`, and is — up to
permutation — the stored rows minus a set of dropped rows each of which is no
newer than anything returned (i.e. the most recent 100 are returned). -/
theorem getMessages_ordered_capped (uid : JSValue) (rows : List MessageRow) :
    (uid.truthy = false → getMessages uid rows = MessagesResponse.err 401 "Not authenticated") ∧
    (uid.truthy = true → ∃ l, getMessages uid rows = MessagesResponse.ok l ∧
      l.Pairwise (fun a b => a.created_at ≤ b.created_at) ∧
      l.length = min 100 rows.length ∧
      ∃ dropped, List.Perm (rows.map MessageRow.view) (l ++ dropped) ∧
        ∀ x ∈ dropped, ∀ y ∈ l, x.created_at ≤ y.created_at) := by
  constructor
  · intro h
    simp [getMessages, h]
  · intro h
    have hs : List.Pairwise msgDescR (List.insertionSort msgDescR rows) :=
      List.sorted_insertionSort msgDescR rows
    have hperm : List.Perm (List.insertionSort msgDescR rows) rows :=
      List.perm_insertionSort msgDescR rows
    have htd : (List.insertionSort msgDescR rows).take 100
          ++ (List.insertionSort msgDescR rows).drop 100
        = List.insertionSort msgDescR rows := List.take_append_drop 100 _
    refine ⟨(((List.insertionSort msgDescR rows).take 100).reverse).map MessageRow.view,
      by simp [getMessages, h], ?_, ?_,
      ((List.insertionSort msgDescR rows).drop 100).map MessageRow.view, ?_, ?_⟩
    · rw [List.pairwise_map, List.pairwise_reverse]
      exact hs.sublist (List.take_sublist 100 _)
    · rw [List.length_map, List.length_reverse, List.length_take, hperm.length_eq]
    · refine ((hperm.symm).map MessageRow.view).trans ?_
      have p2 : (List.insertionSort msgDescR rows).map MessageRow.view
          = ((List.insertionSort msgDescR rows).take 100).map MessageRow.view
            ++ ((List.insertionSort msgDescR rows).drop 100).map MessageRow.view := by
        rw [← List.map_append, htd]
      rw [p2, List.map_reverse]
      exact (List.reverse_perm _).symm.append_right _
    · intro x hx y hy
      obtain ⟨b, hb, rfl⟩ := List.mem_map.mp hx
      obtain ⟨a, ha, rfl⟩ := List.mem_map.mp hy
      have ha' : a ∈ (List.insertionSort msgDescR rows).take 100 := List.mem_reverse.mp ha
      have hs2 : List.Pairwise msgDescR ((List.insertionSort msgDescR rows).take 100
          ++ (List.insertionSort msgDescR rows).drop 100) := by
        rw [htd]; exact hs
      exact (List.pairwise_append.mp hs2).2.2 a ha' b hb

/-- Witness for C5 at a concrete session and two stored rows (timestamps 5
and 3). -/
theorem getMessages_ordered_capped_witness :
    (getMessages .undefined [] = MessagesResponse.err 401 "Not authenticated") ∧
    (∃ l, getMessages (.num 1)
        [{ user_id := .num 1, username := .str "a", message := "x", created_at := 5 },
          { user_id := .num 1, username := .str "a", message := "y", created_at := 3 }]
        = MessagesResponse.ok l ∧
      l.Pairwise (fun a b => a.created_at ≤ b.created_at) ∧
      l.length = min 100
        ([{ user_id := .num 1, username := .str "a", message := "x", created_at := 5 },
          { user_id := .num 1, username := .str "a", message := "y", created_at := 3 }] :
            List MessageRow).length ∧
      ∃ dropped, List.Perm
          (([{ user_id := .num 1, username := .str "a", message := "x", created_at := 5 },
            { user_id := .num 1, username := .str "a", message := "y", created_at := 3 }] :
              List MessageRow).map MessageRow.view) (l ++ dropped) ∧
        ∀ x ∈ dropped, ∀ y ∈ l, x.created_at ≤ y.created_at) :=
  ⟨(getMessages_ordered_capped .undefined []).1 rfl,
    (getMessages_ordered_capped (.num 1)
      [{ user_id := .num 1, username := .str "a", message := "x", created_at := 5 },
        { user_id := .num 1, username := .str "a", message := "y", created_at := 3 }]).2
      (by decide)⟩

end ChatAI
